import Mathlib

/-!
Shallow embedding of `src/plugins/weather_custom/weather_custom.py` (the
InkyPi custom weather plugin).

Modelling conventions:
* Python floats (JSON numbers) are modelled as `ℚ`; Python `round` is
  round-half-to-even (`pyRound`), Python `int(...)` truncates toward zero
  (`pyInt`).
* `datetime.fromisoformat(...).astimezone(tz)` is modelled by letting the
  timestamp fields of the API payloads already hold the converted local
  datetime (`LocalDT`); the claims under study concern only the strftime
  formatting of those local datetimes, not timezone arithmetic, so the
  `tz` parameter of the Python parse helpers disappears.
* Fallible dict/list indexing (Python KeyError / IndexError) is modelled
  in the `Option` monad: `none` is an uncaught exception at that point.
* The two HTTP calls are modelled by passing the (status, body) pair the
  network would return; `generate_image` additionally returns the list of
  HTTP requests it issued, in order, so that "fails before any HTTP
  request is issued" is the trace being empty.
-/

/-- Truthiness-relevant fragment of the Python values a settings dict can
hold for a coordinate: a number or a string. -/
inductive Coord where
  | num : ℚ → Coord
  | str : String → Coord
deriving DecidableEq, Repr

/-- Python truthiness of a coordinate value: `0`/`0.0` and `""` are falsy,
everything else truthy. -/
def Coord.truthy : Coord → Bool
  | .num q => q != 0
  | .str s => s != ""

/-- A datetime already converted to the display timezone: weekday with
Monday = 0 (as Python `datetime.weekday()`), month 1..12, day of month,
hour 0..23, minute 0..59. -/
structure LocalDT where
  weekday : Fin 7
  month : Nat
  day : Nat
  hour : Nat
  minute : Nat
deriving DecidableEq, Repr, Inhabited

/-- Python `round` on a rational: round half to even. -/
def pyRound (q : ℚ) : ℤ :=
  let f := ⌊q⌋
  let frac := q - (f : ℚ)
  if frac < 1 / 2 then f
  else if 1 / 2 < frac then f + 1
  else if f % 2 = 0 then f else f + 1

/-- Python `int(...)` on a rational: truncation toward zero. -/
def pyInt (q : ℚ) : ℤ :=
  if q < 0 then ⌈q⌉ else ⌊q⌋

/-- Decimal digits of a natural number (auxiliary, structural on a fuel
argument that bounds the digit count). -/
def natStrAux : Nat → Nat → List Char
  | 0, _ => []
  | fuel + 1, n =>
    if n < 10 then [Nat.digitChar n]
    else natStrAux fuel (n / 10) ++ [Nat.digitChar (n % 10)]

/-- Decimal digits of a natural number, as Python `str` would print it. -/
def natStr (n : Nat) : String :=
  ⟨natStrAux (n + 1) n⟩

/-- Decimal rendering of an integer. -/
def intStr (z : ℤ) : String :=
  if z < 0 then "-" ++ natStr z.natAbs else natStr z.natAbs

/-- Two-digit zero-padded decimal rendering, as strftime `%I`, `%M`, `%d`
produce for values below 100. -/
def pad2 (n : Nat) : String :=
  if n < 10 then "0" ++ natStr n else natStr n

/-- Python `str.lstrip("0")`: remove every leading `0` character. -/
def lstrip0 (s : String) : String :=
  ⟨s.data.dropWhile (· == '0')⟩

/-- Hour on the 12-hour clock (strftime `%I` / `%-I` value): 0 and 12 map
to 12. -/
def hour12 (h : Nat) : Nat :=
  if h % 12 = 0 then 12 else h % 12

/-- strftime `%p` for a local datetime. -/
def ampm (dt : LocalDT) : String :=
  if dt.hour < 12 then "AM" else "PM"

/-- strftime `%I:%M` for a local datetime (zero-padded 12-hour clock). -/
def strftimeIM (dt : LocalDT) : String :=
  pad2 (hour12 dt.hour) ++ ":" ++ pad2 dt.minute

/-- strftime `%-I %p` for a local datetime (12-hour clock without leading
zero, a space, then AM/PM). -/
def strftimeHourAmPm (dt : LocalDT) : String :=
  natStr (hour12 dt.hour) ++ " " ++ ampm dt

/-- Abbreviated weekday names in Python `datetime.weekday()` order. -/
def WEEKDAY_ABBREV : List String :=
  ["Mon", "Tue", "Wed", "Thu", "Fri", "Sat", "Sun"]

/-- Full weekday names in Python `datetime.weekday()` order. -/
def WEEKDAY_FULL : List String :=
  ["Monday", "Tuesday", "Wednesday", "Thursday", "Friday", "Saturday",
   "Sunday"]

/-- Full month names, index 0 = January. -/
def MONTH_FULL : List String :=
  ["January", "February", "March", "April", "May", "June", "July",
   "August", "September", "October", "November", "December"]

/-- strftime `%a` for a local datetime. -/
def strftimeWeekdayAbbrev (dt : LocalDT) : String :=
  WEEKDAY_ABBREV.getD dt.weekday.val ""

/-- strftime `%A, %B %d` for a local datetime. -/
def strftimeFullDate (dt : LocalDT) : String :=
  WEEKDAY_FULL.getD dt.weekday.val "" ++ ", " ++
    MONTH_FULL.getD (dt.month - 1) "" ++ " " ++ pad2 dt.day

/-- Python `f-string` formatting with `:.2f`: round to two decimal places
(half to even on the scaled value), always print two decimals, keep the
sign of the input. -/
def pyFmt2 (q : ℚ) : String :=
  let m : ℤ := pyRound (|q| * 100)
  let body := natStr (m / 100).natAbs ++ "." ++ pad2 (m % 100).natAbs
  if q < 0 then "-" ++ body else body

/-- Sequence a fallible element computation over a list, stopping at the
first failure: the observable behaviour of a Python for-loop whose body
may raise. -/
def optTraverse {α β : Type} (f : α → Option β) : List α → Option (List β)
  | [] => some []
  | a :: l =>
    match f a, optTraverse f l with
    | some b, some bs => some (b :: bs)
    | _, _ => none

theorem optTraverse_eq_map {α β : Type} (f : α → Option β) (g : α → β)
    (l : List α) (h : ∀ a ∈ l, f a = some (g a)) :
    optTraverse f l = some (l.map g) := by
  induction l with
  | nil => rfl
  | cons a t ih =>
    have ha : f a = some (g a) := h a (by simp)
    have ht := ih (fun x hx => h x (by simp [hx]))
    simp [optTraverse, ha, ht]

theorem get?_eq_some_getD {α : Type} (l : List α) (n : Nat) (d : α)
    (h : n < l.length) : l.get? n = some (l.getD n d) := by
  induction l generalizing n with
  | nil => simp at h
  | cons a t ih =>
    cases n with
    | zero => rfl
    | succ m =>
      simp only [List.length_cons] at h
      simpa [List.get?, List.getD] using ih m (by omega)

/-- The `WEATHER_CODE_ICONS` table of the source, as an association list in
the order of the Python dict literal. -/
def WEATHER_CODE_ICONS : List (Nat × String) :=
  [(0, "01d"), (1, "02d"), (2, "03d"), (3, "04d"),
   (45, "50d"), (48, "50d"),
   (51, "09d"), (53, "09d"), (55, "09d"), (56, "09d"), (57, "09d"),
   (61, "10d"), (63, "10d"), (65, "10d"),
   (66, "13d"), (67, "13d"),
   (71, "13d"), (73, "13d"), (75, "13d"), (77, "13d"),
   (80, "09d"), (81, "09d"), (82, "09d"),
   (85, "13d"), (86, "13d"),
   (95, "11d"), (96, "11d"), (99, "11d")]

/-- Python `WEATHER_CODE_ICONS.get(code, "01d")`. -/
def weatherCodeIcon (code : Nat) : String :=
  (WEATHER_CODE_ICONS.lookup code).getD "01d"

/-- Modelled from the spec: `BasePlugin.get_plugin_dir` (base-plugin
framework code, not in `src/`) resolves a relative path "under the
plugin's own asset directory"; modelled as prefixing that fixed
directory. -/
def get_plugin_dir (path : String) : String :=
  "plugins/weather_custom/" ++ path

/-- The `current` object of the forecast response (fields the source
reads; `time` holds the datetime already converted to the display
timezone). -/
structure Current where
  time : LocalDT
  temperature_2m : ℚ
  relative_humidity_2m : ℚ
  rain : ℚ
  wind_speed_10m : ℚ
  pressure_msl : ℚ
deriving DecidableEq, Repr

/-- The `daily` object of the forecast response; timestamp lists hold
converted local datetimes. -/
structure Daily where
  time : List LocalDT
  temperature_2m_max : List ℚ
  temperature_2m_min : List ℚ
  sunrise : List LocalDT
  sunset : List LocalDT
  weathercode : List Nat
  uv_index_max : List ℚ
deriving DecidableEq, Repr

/-- The `hourly` object of the forecast response. -/
structure Hourly where
  time : List LocalDT
  temperature_2m : List ℚ
  rain : List ℚ
deriving DecidableEq, Repr

/-- The forecast response body: top-level `latitude`/`longitude` returned
by the API (the grid coordinates, possibly adjusted from the request),
plus the three sub-objects. -/
structure ForecastData where
  latitude : ℚ
  longitude : ℚ
  current : Current
  daily : Daily
  hourly : Hourly
deriving DecidableEq, Repr

/-- The air-quality response body: the `hourly.european_aqi` series, whose
entries may be JSON `null` (`none`). -/
structure AirQuality where
  hourly_european_aqi : List (Option ℚ)
deriving DecidableEq, Repr

/-- A measurement value as it lands in the template dict: a string, an
integer, or a raw number. -/
inductive Measurement where
  | str : String → Measurement
  | int : ℤ → Measurement
  | rat : ℚ → Measurement
deriving DecidableEq, Repr, Inhabited

/-- One entry of the `data_points` list. -/
structure DataPoint where
  label : String
  measurement : Measurement
  unit : String
  icon : String
deriving DecidableEq, Repr, Inhabited

/-- One entry of the five-day `forecast` list. -/
structure ForecastEntry where
  day : String
  high : ℤ
  low : ℤ
  icon : String
deriving DecidableEq, Repr, Inhabited

/-- One entry of the `hourly_forecast` list (the `precipitiation` spelling
is the source's). -/
structure HourlyEntry where
  time : String
  temperature : ℤ
  precipitiation : ℚ
deriving DecidableEq, Repr, Inhabited

/-- The template dict built by `parse_weather_data` (the
`plugin_settings` key added afterwards by `generate_image`, and the
rendering geometry, are outside the model). -/
structure TemplateParams where
  current_date : String
  location : String
  current_temperature : String
  feels_like : String
  temperature_unit : String
  units : String
  current_day_icon : String
  forecast : List ForecastEntry
  hourly_forecast : List HourlyEntry
  data_points : List DataPoint
deriving DecidableEq, Repr, Inhabited

/-- `Weather.get_aqi_description`. -/
def get_aqi_description (aqi : ℚ) : String :=
  if aqi ≤ 20 then "Good"
  else if aqi ≤ 40 then "Fair"
  else if aqi ≤ 60 then "Moderate"
  else if aqi ≤ 80 then "Poor"
  else "Very Poor"

/-- `Weather.parse_forecast`: Python `range(1, min(len(daily["time"]), 6))`
iterating the daily arrays; an out-of-range index on any of the four
arrays is an uncaught IndexError (`none`). -/
def parse_forecast (daily : Daily) : Option (List ForecastEntry) :=
  optTraverse
    (fun i => do
      let dt ← daily.time.get? i
      let wc ← daily.weathercode.get? i
      let hi ← daily.temperature_2m_max.get? i
      let lo ← daily.temperature_2m_min.get? i
      some { day := strftimeWeekdayAbbrev dt,
             high := pyInt hi,
             low := pyInt lo,
             icon := get_plugin_dir ("icons/" ++ weatherCodeIcon wc ++ ".png") })
    (List.range' 1 (min daily.time.length 6 - 1))

/-- `Weather.parse_hourly`: Python `range(24)` over the hourly arrays;
an out-of-range index is an uncaught IndexError (`none`). -/
def parse_hourly (hourly : Hourly) : Option (List HourlyEntry) :=
  optTraverse
    (fun i => do
      let dt ← hourly.time.get? i
      let temp ← hourly.temperature_2m.get? i
      let r ← hourly.rain.get? i
      some { time := strftimeHourAmPm dt,
             temperature := pyRound temp,
             precipitiation := r })
    (List.range 24)

/-- The list literal of fixed data points built by
`Weather.parse_data_points` (sunrise, sunset, wind, humidity, pressure,
UV index, rain — in source order). -/
def base_data_points (current : Current) (sunrise_dt sunset_dt : LocalDT)
    (uv : ℚ) : List DataPoint :=
  [{ label := "Sunrise",
       measurement := .str (lstrip0 (strftimeIM sunrise_dt)),
       unit := ampm sunrise_dt,
       icon := get_plugin_dir "icons/sunrise.png" },
     { label := "Sunset",
       measurement := .str (lstrip0 (strftimeIM sunset_dt)),
       unit := ampm sunset_dt,
       icon := get_plugin_dir "icons/sunset.png" },
     { label := "Wind",
       measurement := .int (pyRound current.wind_speed_10m),
       unit := "km/h",
       icon := get_plugin_dir "icons/wind.png" },
     { label := "Humidity",
       measurement := .rat current.relative_humidity_2m,
       unit := "%",
       icon := get_plugin_dir "icons/humidity.png" },
     { label := "Pressure",
       measurement := .rat current.pressure_msl,
       unit := "hPa",
       icon := get_plugin_dir "icons/pressure.png" },
     { label := "UV Index",
       measurement := .rat uv,
       unit := "",
       icon := get_plugin_dir "icons/uvi.png" },
   { label := "Rain",
     measurement := .rat current.rain,
     unit := "mm",
     icon := get_plugin_dir "icons/rain.png" }]

/-- `Weather.parse_data_points`: the seven fixed data points, then the
Air Quality point appended only when air-quality data is present and the
AQI value extracts without an exception (a missing index or a JSON null
raises inside the `try`, is caught, and the point is skipped). -/
def parse_data_points (current : Current) (daily : Daily)
    (air_quality : Option AirQuality) : Option (List DataPoint) := do
  let sunrise_dt ← daily.sunrise.get? 0
  let sunset_dt ← daily.sunset.get? 0
  let uv ← daily.uv_index_max.get? 0
  let base := base_data_points current sunrise_dt sunset_dt uv
  match air_quality with
  | none => some base
  | some aq =>
    match (aq.hourly_european_aqi.get? 0).bind id with
    | none => some base
    | some aqi =>
      some (base ++
        [{ label := "Air Quality",
           measurement := .int (pyInt aqi),
           unit := get_aqi_description aqi,
           icon := get_plugin_dir "icons/aqi.png" }])

/-- `Weather.parse_weather_data`: builds the template dict; a missing
`weathercode[0]` or a failure inside one of the three parse helpers is an
uncaught exception (`none`). -/
def parse_weather_data (data : ForecastData)
    (air_quality : Option AirQuality) : Option TemplateParams := do
  let current := data.current
  let daily := data.daily
  let dt := current.time
  let wc0 ← daily.weathercode.get? 0
  let icon_code := weatherCodeIcon wc0
  let forecast ← parse_forecast daily
  let hourly_forecast ← parse_hourly data.hourly
  let data_points ← parse_data_points current daily air_quality
  some { current_date := strftimeFullDate dt,
         location := pyFmt2 data.latitude ++ ", " ++ pyFmt2 data.longitude,
         current_temperature := intStr (pyRound current.temperature_2m),
         feels_like := "–",
         temperature_unit := "°C",
         units := "metric",
         current_day_icon :=
           get_plugin_dir ("icons/" ++ icon_code ++ ".png"),
         forecast := forecast,
         hourly_forecast := hourly_forecast,
         data_points := data_points }

/-- An HTTP response: success flag (`response.ok`) and the JSON body the
call would yield. -/
structure HTTPResp (α : Type) where
  ok : Bool
  body : α

/-- `Weather.get_weather_data`: a non-success status raises
RuntimeError, otherwise the parsed JSON body is returned. -/
def get_weather_data (resp : HTTPResp ForecastData) :
    Except String ForecastData :=
  if resp.ok then .ok resp.body
  else .error "Failed to fetch weather data."

/-- `Weather.get_air_quality`: a non-success status logs and returns
None, otherwise the parsed JSON body is returned. -/
def get_air_quality (resp : HTTPResp AirQuality) : Option AirQuality :=
  if resp.ok then some resp.body else none

/-- The settings dict, restricted to the two keys the plugin reads
(`settings.get` of an absent key is `none`). -/
structure Settings where
  latitude : Option Coord
  longitude : Option Coord
deriving Repr

/-- One issued HTTP GET, identified by endpoint and the coordinates
interpolated into the URL. -/
inductive HTTPRequest where
  | weather (lat long : Coord)
  | airQuality (lat long : Coord)
deriving DecidableEq, Repr

/-- `Weather.generate_image`: the guard `if not lat or not long` raises
before any request; then the forecast fetch (fatal on failure), then the
air-quality fetch (soft), then `parse_weather_data`. The returned trace
lists the HTTP requests issued, in order. Rendering geometry and the
final screenshot are external collaborators outside the model, so the
successful result is the template dict handed to the renderer. -/
def generate_image (settings : Settings)
    (weatherResp : HTTPResp ForecastData) (airResp : HTTPResp AirQuality) :
    Except String TemplateParams × List HTTPRequest :=
  match settings.latitude, settings.longitude with
  | some lat, some long =>
    if !lat.truthy || !long.truthy then
      (.error "Latitude and Longitude are required.", [])
    else
      match get_weather_data weatherResp with
      | .error e => (.error e, [.weather lat long])
      | .ok weather_data =>
        let air_quality_data := get_air_quality airResp
        match parse_weather_data weather_data air_quality_data with
        | none =>
          (.error "uncaught exception in parse_weather_data",
           [.weather lat long, .airQuality lat long])
        | some template_params =>
          (.ok template_params,
           [.weather lat long, .airQuality lat long])
  | _, _ => (.error "Latitude and Longitude are required.", [])

/-- The forecast entry the source builds from daily index `i` (total
reformulation via `getD`; coincides with the loop body whenever `i` is in
range for all four arrays). -/
def forecastEntryAt (daily : Daily) (i : Nat) : ForecastEntry :=
  { day := strftimeWeekdayAbbrev (daily.time.getD i default),
    high := pyInt (daily.temperature_2m_max.getD i 0),
    low := pyInt (daily.temperature_2m_min.getD i 0),
    icon := get_plugin_dir
      ("icons/" ++ weatherCodeIcon (daily.weathercode.getD i 0) ++ ".png") }

/-- The hourly entry the source builds from hourly index `i` (total
reformulation via `getD`). -/
def hourlyEntryAt (hourly : Hourly) (i : Nat) : HourlyEntry :=
  { time := strftimeHourAmPm (hourly.time.getD i default),
    temperature := pyRound (hourly.temperature_2m.getD i 0),
    precipitiation := hourly.rain.getD i 0 }

/-- Concrete local datetime used by witnesses: a Monday, January 05,
06:05. -/
def sampleDT : LocalDT := ⟨0, 1, 5, 6, 5⟩

/-- Concrete evening local datetime used by witnesses: 18:30. -/
def sampleDT2 : LocalDT := ⟨0, 1, 5, 18, 30⟩

/-- Concrete `current` object used by witnesses. -/
def sampleCurrent : Current :=
  { time := sampleDT, temperature_2m := 7, relative_humidity_2m := 50,
    rain := 0, wind_speed_10m := 14, pressure_msl := 1013 }

/-- Concrete `daily` object used by witnesses: seven days, today's
weather code 61. -/
def sampleDaily : Daily :=
  { time := List.replicate 7 sampleDT,
    temperature_2m_max := List.replicate 7 (9 : ℚ),
    temperature_2m_min := List.replicate 7 (3 : ℚ),
    sunrise := List.replicate 7 sampleDT,
    sunset := List.replicate 7 sampleDT2,
    weathercode := [61, 100, 0, 1, 2, 3, 45],
    uv_index_max := List.replicate 7 (5 : ℚ) }

/-- Concrete `hourly` object used by witnesses: 25 entries, so more than
the 24 the parser reads. -/
def sampleHourly : Hourly :=
  { time := List.replicate 25 sampleDT,
    temperature_2m := List.replicate 25 (7 : ℚ),
    rain := List.replicate 25 (0 : ℚ) }

/-- Concrete forecast response body used by witnesses; the API-returned
grid coordinates are 1.25 and 1.20. -/
def sampleData : ForecastData :=
  { latitude := 5 / 4, longitude := 6 / 5, current := sampleCurrent,
    daily := sampleDaily, hourly := sampleHourly }

/-- Concrete air-quality body whose AQI value extraction fails (first
hourly value is JSON null). -/
def sampleAQNull : AirQuality := { hourly_european_aqi := [none, some 12] }

theorem strMk_append (a : List Char) (s : String) :
    (⟨a⟩ : String) ++ s = ⟨a ++ s.data⟩ := by
  cases s
  rfl

theorem dropWhile0_cons_zero (l : List Char) :
    List.dropWhile (· == '0') ('0' :: l) = List.dropWhile (· == '0') l := by
  simp [List.dropWhile]

theorem dropWhile0_cons_ne (c : Char) (l : List Char) (h : c ≠ '0') :
    List.dropWhile (· == '0') (c :: l) = c :: l := by
  have hb : (c == '0') = false := by simpa using h
  simp [List.dropWhile, hb]

theorem natStr_small (n : Nat) (h : n < 10) :
    natStr n = ⟨[Nat.digitChar n]⟩ := by
  simp [natStr, natStrAux, h]

theorem natStr_two_digit (n : Nat) (h10 : 10 ≤ n) (h100 : n < 100) :
    natStr n = ⟨[Nat.digitChar (n / 10), Nat.digitChar (n % 10)]⟩ := by
  obtain ⟨m, rfl⟩ : ∃ m, n = m + 1 := ⟨n - 1, by omega⟩
  have hdiv : (m + 1) / 10 < 10 := by omega
  simp [natStr, natStrAux, show ¬ m + 1 < 10 by omega, hdiv]

theorem digitChar_ne_zero (k : Nat) (h1 : 1 ≤ k) (h2 : k < 10) :
    Nat.digitChar k ≠ '0' := by
  interval_cases k <;> decide

theorem hour12_bounds (h : Nat) : 1 ≤ hour12 h ∧ hour12 h ≤ 12 := by
  have : h % 12 < 12 := Nat.mod_lt h (by omega)
  unfold hour12
  split <;> omega

theorem lstrip0_pad2_hour (k : Nat) (h1 : 1 ≤ k) (h2 : k ≤ 12)
    (rest : String) : lstrip0 (pad2 k ++ rest) = natStr k ++ rest := by
  by_cases hk : k < 10
  · have hd := digitChar_ne_zero k h1 hk
    rw [pad2, if_pos hk, natStr_small k hk,
        show ("0" : String) = ⟨['0']⟩ from rfl, strMk_append, strMk_append,
        strMk_append]
    simp only [lstrip0, List.cons_append, List.nil_append,
      dropWhile0_cons_zero, dropWhile0_cons_ne _ _ hd]
  · have h10 : 10 ≤ k := by omega
    have hdiv : k / 10 = 1 := by omega
    rw [pad2, if_neg hk, natStr_two_digit k h10 (by omega), hdiv,
        strMk_append]
    simp only [lstrip0, List.cons_append]
    rw [dropWhile0_cons_ne _ _ (show Nat.digitChar 1 ≠ '0' by decide)]

/-- The `%I:%M` + `lstrip("0")` pipeline of the source produces the
unpadded 12-hour clock hour, a colon, and the zero-padded minute. -/
theorem lstrip0_strftimeIM (dt : LocalDT) :
    lstrip0 (strftimeIM dt) =
      natStr (hour12 dt.hour) ++ ":" ++ pad2 dt.minute := by
  obtain ⟨hb1, hb2⟩ := hour12_bounds dt.hour
  have := lstrip0_pad2_hour (hour12 dt.hour) hb1 hb2 (":" ++ pad2 dt.minute)
  rw [strftimeIM, String.append_assoc, this, String.append_assoc]

/-- Python `round` really is a nearest-integer rounding: the result is
never further than 1/2 from the argument. -/
theorem pyRound_nearest (q : ℚ) : |(pyRound q : ℚ) - q| ≤ 1 / 2 := by
  have hfl : (⌊q⌋ : ℚ) ≤ q := Int.floor_le q
  have hfu : q < ⌊q⌋ + 1 := Int.lt_floor_add_one q
  simp only [pyRound]
  split_ifs with h1 h2 h3 <;> rw [abs_le] <;> push_cast <;>
    constructor <;> linarith

theorem optTraverse_isSome {α β : Type} (f : α → Option β) (l : List α)
    (bs : List β) (h : optTraverse f l = some bs) :
    ∀ a ∈ l, ∃ b, f a = some b := by
  induction l generalizing bs with
  | nil => simp
  | cons a t ih =>
    intro x hx
    rw [optTraverse] at h
    rcases hfa : f a with _ | b
    · rw [hfa] at h
      simp at h
    · rcases hft : optTraverse f t with _ | bt
      · rw [hfa, hft] at h
        simp at h
      · rcases List.mem_cons.mp hx with rfl | hxt
        · exact ⟨b, hfa⟩
        · exact ih bt hft x hxt

/-- C1: `get_aqi_description` classifies with inclusive upper bounds on
the European AQI scale: ≤ 20 "Good", ≤ 40 "Fair", ≤ 60 "Moderate",
≤ 80 "Poor", larger "Very Poor"; in particular 45 → "Moderate",
20 → "Good", 80 → "Poor", 81 → "Very Poor". -/
theorem aqi_band_classification (aqi : ℚ) :
    (aqi ≤ 20 → get_aqi_description aqi = "Good") ∧
    (20 < aqi → aqi ≤ 40 → get_aqi_description aqi = "Fair") ∧
    (40 < aqi → aqi ≤ 60 → get_aqi_description aqi = "Moderate") ∧
    (60 < aqi → aqi ≤ 80 → get_aqi_description aqi = "Poor") ∧
    (80 < aqi → get_aqi_description aqi = "Very Poor") ∧
    get_aqi_description 45 = "Moderate" ∧
    get_aqi_description 20 = "Good" ∧
    get_aqi_description 80 = "Poor" ∧
    get_aqi_description 81 = "Very Poor" := by
  refine ⟨?_, ?_, ?_, ?_, ?_, ?_, ?_, ?_, ?_⟩
  · intro h
    rw [get_aqi_description, if_pos h]
  · intro h1 h2
    rw [get_aqi_description, if_neg (by linarith), if_pos h2]
  · intro h1 h2
    rw [get_aqi_description, if_neg (by linarith), if_neg (by linarith),
        if_pos h2]
  · intro h1 h2
    rw [get_aqi_description, if_neg (by linarith), if_neg (by linarith),
        if_neg (by linarith), if_pos h2]
  · intro h
    rw [get_aqi_description, if_neg (by linarith), if_neg (by linarith),
        if_neg (by linarith), if_neg (by linarith)]
  · norm_num [get_aqi_description]
  · norm_num [get_aqi_description]
  · norm_num [get_aqi_description]
  · norm_num [get_aqi_description]

/-- Witness for C1: the band theorem applied at 45, 20 and 81. -/
theorem aqi_band_classification_witness :
    get_aqi_description 45 = "Moderate" ∧
    get_aqi_description 20 = "Good" ∧
    get_aqi_description 81 = "Very Poor" :=
  ⟨(aqi_band_classification 45).2.2.1 (by norm_num) (by norm_num),
   (aqi_band_classification 20).1 (by norm_num),
   (aqi_band_classification 81).2.2.2.2.1 (by norm_num)⟩

/-- C7: a non-success HTTP status on the forecast call makes
`get_weather_data` raise, never returning a parsed response, and the
whole render aborts right after the weather request. -/
theorem weather_fetch_hard_failure (resp : HTTPResp ForecastData)
    (hok : resp.ok = false) (la lo : Coord) (hla : la.truthy = true)
    (hlo : lo.truthy = true) (a : HTTPResp AirQuality) :
    get_weather_data resp = .error "Failed to fetch weather data." ∧
    (∀ fd, get_weather_data resp ≠ .ok fd) ∧
    generate_image ⟨some la, some lo⟩ resp a =
      (.error "Failed to fetch weather data.", [.weather la lo]) := by
  have hw : get_weather_data resp =
      .error "Failed to fetch weather data." := by
    rw [get_weather_data, hok]
    simp
  refine ⟨hw, ?_, ?_⟩
  · intro fd
    rw [hw]
    simp
  · rw [generate_image]
    simp [hla, hlo, hw]

/-- Witness for C7: a failed forecast fetch aborts the render with the
weather request as the only one issued. -/
theorem weather_fetch_hard_failure_witness :
    generate_image ⟨some (Coord.num 1), some (Coord.num 1)⟩
      ⟨false, sampleData⟩ ⟨true, sampleAQNull⟩ =
      (.error "Failed to fetch weather data.",
       [.weather (Coord.num 1) (Coord.num 1)]) :=
  (weather_fetch_hard_failure ⟨false, sampleData⟩ rfl
    (Coord.num 1) (Coord.num 1) (by norm_num [Coord.truthy])
    (by norm_num [Coord.truthy]) ⟨true, sampleAQNull⟩).2.2

/-- C9: a coordinate that is present in the settings but falsy — the
number 0 or the empty string — is rejected by the guard exactly like an
absent one, before any HTTP request. -/
theorem falsy_present_coordinate_rejected (c other : Coord)
    (hc : c.truthy = false) (w : HTTPResp ForecastData)
    (a : HTTPResp AirQuality) :
    generate_image ⟨some c, some other⟩ w a =
      (.error "Latitude and Longitude are required.", []) ∧
    generate_image ⟨some other, some c⟩ w a =
      (.error "Latitude and Longitude are required.", []) ∧
    Coord.truthy (.num 0) = false ∧
    Coord.truthy (.str "") = false := by
  refine ⟨?_, ?_, by norm_num [Coord.truthy], by norm_num [Coord.truthy]⟩
  · rw [generate_image]
    simp [hc]
  · rw [generate_image]
    simp [hc]

/-- Witness for C9: latitude 0 is present yet rejected with no request
issued. -/
theorem falsy_present_coordinate_rejected_witness :
    generate_image ⟨some (Coord.num 0), some (Coord.num 1)⟩
      ⟨true, sampleData⟩ ⟨true, sampleAQNull⟩ =
      (.error "Latitude and Longitude are required.", []) :=
  (falsy_present_coordinate_rejected (Coord.num 0) (Coord.num 1)
    (by norm_num [Coord.truthy]) ⟨true, sampleData⟩ ⟨true, sampleAQNull⟩).1

/-- Counterexample to C6 as stated: both coordinates are present in the
settings (latitude holds the value 0), yet `generate_image` raises the
missing-coordinates error and issues no HTTP request, so "with both
present the fetches proceed" fails. -/
theorem present_zero_coordinate_no_fetch :
    (⟨some (Coord.num 0), some (Coord.num 1)⟩ : Settings).latitude ≠ none ∧
    (⟨some (Coord.num 0), some (Coord.num 1)⟩ : Settings).longitude ≠ none ∧
    generate_image ⟨some (Coord.num 0), some (Coord.num 1)⟩
      ⟨true, sampleData⟩ ⟨true, sampleAQNull⟩ =
      (.error "Latitude and Longitude are required.", []) := by
  refine ⟨by simp, by simp, ?_⟩
  rw [generate_image]
  norm_num [Coord.truthy]

/-- C6 as amended: if latitude or longitude is absent, `generate_image`
fails with the missing-coordinates error before issuing any HTTP
request; with both present and truthy the fetches proceed, the weather
request being issued first. -/
theorem coordinates_guard (s : Settings)
    (w : HTTPResp ForecastData) (a : HTTPResp AirQuality) :
    ((s.latitude = none ∨ s.longitude = none) →
      generate_image s w a =
        (.error "Latitude and Longitude are required.", [])) ∧
    (∀ la lo, s.latitude = some la → s.longitude = some lo →
      la.truthy = true → lo.truthy = true →
      (generate_image s w a).2.head? = some (.weather la lo)) := by
  obtain ⟨slat, slong⟩ := s
  constructor
  · intro h
    simp only at h
    rcases slat with _ | la
    · rw [generate_image]
    · rcases slong with _ | lo
      · rw [generate_image]
      · simp at h
  · intro la lo hla hlo htla htlo
    simp only at hla hlo
    subst hla hlo
    rw [generate_image]
    simp only [htla, htlo, Bool.not_true, Bool.or_self, Bool.false_eq_true,
      if_false]
    cases hw : get_weather_data w with
    | error e => rfl
    | ok wd =>
      cases hp : parse_weather_data wd (get_air_quality a) with
      | none => simp [hp]
      | some p => simp [hp]

/-- Witness for the amended C6: with two truthy coordinates the weather
request is issued first. -/
theorem coordinates_guard_witness :
    (generate_image ⟨some (Coord.num 1), some (Coord.num 2)⟩
      ⟨true, sampleData⟩ ⟨true, sampleAQNull⟩).2.head? =
      some (.weather (Coord.num 1) (Coord.num 2)) :=
  (coordinates_guard ⟨some (Coord.num 1), some (Coord.num 2)⟩
    ⟨true, sampleData⟩ ⟨true, sampleAQNull⟩).2 (Coord.num 1) (Coord.num 2)
    rfl rfl (by norm_num [Coord.truthy]) (by norm_num [Coord.truthy])

/-- C3: for a daily series with N ≥ 1 entries, `parse_forecast` maps
exactly the indices 1 .. min 5 (N − 1) — never index 0, at most 5
entries — each entry carrying the abbreviated weekday name, the
truncated high and low temperatures, and the icon from the code
table. -/
theorem forecast_window (daily : Daily) (hN : 1 ≤ daily.time.length)
    (hwc : min daily.time.length 6 ≤ daily.weathercode.length)
    (hmax : min daily.time.length 6 ≤ daily.temperature_2m_max.length)
    (hmin : min daily.time.length 6 ≤ daily.temperature_2m_min.length) :
    parse_forecast daily =
      some ((List.range' 1 (min 5 (daily.time.length - 1))).map
        (forecastEntryAt daily)) ∧
    (∀ L, parse_forecast daily = some L →
      L.length = min 5 (daily.time.length - 1) ∧ L.length ≤ 5) ∧
    (∀ i ∈ List.range' 1 (min 5 (daily.time.length - 1)),
      1 ≤ i ∧ i ≤ 5) := by
  have hcount : min daily.time.length 6 - 1 =
      min 5 (daily.time.length - 1) := by
    omega
  have hmain : parse_forecast daily =
      some ((List.range' 1 (min 5 (daily.time.length - 1))).map
        (forecastEntryAt daily)) := by
    rw [parse_forecast, hcount]
    apply optTraverse_eq_map
    intro i hi
    rw [List.mem_range'_1] at hi
    have hiN : i < daily.time.length := by omega
    have hi6 : i < min daily.time.length 6 := by omega
    rw [get?_eq_some_getD daily.time i default hiN,
        get?_eq_some_getD daily.weathercode i 0 (by omega),
        get?_eq_some_getD daily.temperature_2m_max i 0 (by omega),
        get?_eq_some_getD daily.temperature_2m_min i 0 (by omega)]
    rfl
  refine ⟨hmain, ?_, ?_⟩
  · intro L hL
    rw [hmain] at hL
    cases hL
    rw [List.length_map, List.length_range']
    omega
  · intro i hi
    rw [List.mem_range'_1] at hi
    omega

/-- Witness for C3: a seven-day daily series yields the forecast for
indices 1..5. -/
theorem forecast_window_witness :
    parse_forecast sampleDaily =
      some ((List.range' 1 (min 5 (sampleDaily.time.length - 1))).map
        (forecastEntryAt sampleDaily)) :=
  (forecast_window sampleDaily (by decide) (by decide) (by decide)
    (by decide)).1

/-- C4: with at least 24 hourly entries, `parse_hourly` returns exactly
the 24 entries for indices 0..23 — 12-hour clock with no leading zero
plus AM/PM, round-half-to-even temperature, raw rain amount — and with
fewer than 24 timestamps it fails. -/
theorem hourly_window (hourly : Hourly) (ht : 24 ≤ hourly.time.length)
    (htemp : 24 ≤ hourly.temperature_2m.length)
    (hr : 24 ≤ hourly.rain.length) :
    parse_hourly hourly =
      some ((List.range 24).map (hourlyEntryAt hourly)) ∧
    (∀ L, parse_hourly hourly = some L → L.length = 24) ∧
    (∀ q : ℚ, |(pyRound q : ℚ) - q| ≤ 1 / 2) ∧
    (∀ h' : Hourly, h'.time.length < 24 → parse_hourly h' = none) := by
  have hmain : parse_hourly hourly =
      some ((List.range 24).map (hourlyEntryAt hourly)) := by
    rw [parse_hourly]
    apply optTraverse_eq_map
    intro i hi
    rw [List.mem_range] at hi
    rw [get?_eq_some_getD hourly.time i default (by omega),
        get?_eq_some_getD hourly.temperature_2m i 0 (by omega),
        get?_eq_some_getD hourly.rain i 0 (by omega)]
    rfl
  refine ⟨hmain, ?_, pyRound_nearest, ?_⟩
  · intro L hL
    rw [hmain] at hL
    cases hL
    simp
  · intro h' hlen
    cases he : parse_hourly h' with
    | none => rfl
    | some L =>
      exfalso
      have := optTraverse_isSome _ _ _ he h'.time.length
        (by rw [List.mem_range]; omega)
      obtain ⟨b, hb⟩ := this
      rw [show h'.time.get? h'.time.length = none from
            List.get?_eq_none.mpr (le_refl _)] at hb
      simp at hb

/-- Witness for C4: a 25-entry hourly series yields exactly the 24
mapped entries. -/
theorem hourly_window_witness :
    parse_hourly sampleHourly =
      some ((List.range 24).map (hourlyEntryAt sampleHourly)) :=
  (hourly_window sampleHourly (by decide) (by decide) (by decide)).1

/-- C5: a non-success air-quality response makes `get_air_quality`
return none instead of raising; the data-point list then carries no
"Air Quality" entry, and an extraction failure on a present air-quality
body is caught and the point silently omitted, never failing the
render. -/
theorem air_quality_soft_failure (resp : HTTPResp AirQuality)
    (hok : resp.ok = false) (current : Current) (daily : Daily)
    (sr ss : LocalDT) (uv : ℚ)
    (hsr : daily.sunrise.get? 0 = some sr)
    (hss : daily.sunset.get? 0 = some ss)
    (huv : daily.uv_index_max.get? 0 = some uv)
    (aq : AirQuality)
    (haq : (aq.hourly_european_aqi.get? 0).bind id = none) :
    get_air_quality resp = none ∧
    (∃ l, parse_data_points current daily (get_air_quality resp) = some l ∧
      ∀ dp ∈ l, dp.label ≠ "Air Quality") ∧
    (∃ l, parse_data_points current daily (some aq) = some l ∧
      ∀ dp ∈ l, dp.label ≠ "Air Quality") := by
  have hga : get_air_quality resp = none := by
    rw [get_air_quality, hok]
    simp
  refine ⟨hga, ?_, ?_⟩
  · rw [hga]
    refine ⟨base_data_points current sr ss uv, ?_, ?_⟩
    · rw [parse_data_points, hsr, hss, huv]
      rfl
    · intro dp hdp
      simp only [base_data_points, List.mem_cons, List.not_mem_nil,
        or_false] at hdp
      rcases hdp with rfl | rfl | rfl | rfl | rfl | rfl | rfl <;> simp
  · refine ⟨base_data_points current sr ss uv, ?_, ?_⟩
    · rw [parse_data_points, hsr, hss, huv]
      simp only [Option.some_bind, haq]
      rfl
    · intro dp hdp
      simp only [base_data_points, List.mem_cons, List.not_mem_nil,
        or_false] at hdp
      rcases hdp with rfl | rfl | rfl | rfl | rfl | rfl | rfl <;> simp

/-- Witness for C5: a failed air-quality fetch returns none, and a null
AQI value on a present body still leaves the data-point list free of an
"Air Quality" entry. -/
theorem air_quality_soft_failure_witness :
    get_air_quality (⟨false, sampleAQNull⟩ : HTTPResp AirQuality) = none ∧
    (∃ l, parse_data_points sampleCurrent sampleDaily
        (some sampleAQNull) = some l ∧
      ∀ dp ∈ l, dp.label ≠ "Air Quality") :=
  ⟨(air_quality_soft_failure ⟨false, sampleAQNull⟩ rfl sampleCurrent
      sampleDaily sampleDT sampleDT2 5 rfl rfl rfl sampleAQNull rfl).1,
   (air_quality_soft_failure ⟨false, sampleAQNull⟩ rfl sampleCurrent
      sampleDaily sampleDT sampleDT2 5 rfl rfl rfl sampleAQNull rfl).2.2⟩

/-- C8: the Sunrise and Sunset data points format the local time as the
unpadded 12-hour hour, a colon, the zero-padded minute (leading zero
stripped from the hour only), with AM/PM as the separate unit field;
06:05 renders as "6:05" / "AM". -/
theorem sunrise_sunset_format (current : Current) (daily : Daily)
    (aq : Option AirQuality) (sr ss : LocalDT) (uv : ℚ)
    (hsr : daily.sunrise.get? 0 = some sr)
    (hss : daily.sunset.get? 0 = some ss)
    (huv : daily.uv_index_max.get? 0 = some uv)
    (l : List DataPoint)
    (hl : parse_data_points current daily aq = some l) :
    (∃ dp, l.get? 0 = some dp ∧ dp.label = "Sunrise" ∧
      dp.measurement =
        .str (natStr (hour12 sr.hour) ++ ":" ++ pad2 sr.minute) ∧
      dp.unit = ampm sr) ∧
    (∃ dp, l.get? 1 = some dp ∧ dp.label = "Sunset" ∧
      dp.measurement =
        .str (natStr (hour12 ss.hour) ++ ":" ++ pad2 ss.minute) ∧
      dp.unit = ampm ss) ∧
    lstrip0 (strftimeIM ⟨0, 1, 5, 6, 5⟩) = "6:05" ∧
    ampm ⟨0, 1, 5, 6, 5⟩ = "AM" := by
  have hbase :
      (∃ dp, l.get? 0 = some dp ∧ dp.label = "Sunrise" ∧
        dp.measurement = .str (lstrip0 (strftimeIM sr)) ∧
        dp.unit = ampm sr) ∧
      (∃ dp, l.get? 1 = some dp ∧ dp.label = "Sunset" ∧
        dp.measurement = .str (lstrip0 (strftimeIM ss)) ∧
        dp.unit = ampm ss) := by
    cases aq with
    | none =>
      have he : parse_data_points current daily none =
          some (base_data_points current sr ss uv) := by
        rw [parse_data_points, hsr, hss, huv]
        rfl
      rw [he] at hl
      injection hl with hl
      subst hl
      exact ⟨⟨_, rfl, rfl, rfl, rfl⟩, ⟨_, rfl, rfl, rfl, rfl⟩⟩
    | some aq' =>
      cases hx : (aq'.hourly_european_aqi.get? 0).bind id with
      | none =>
        have he : parse_data_points current daily (some aq') =
            some (base_data_points current sr ss uv) := by
          rw [parse_data_points, hsr, hss, huv]
          simp only [Option.some_bind, hx]
          rfl
        rw [he] at hl
        injection hl with hl
        subst hl
        exact ⟨⟨_, rfl, rfl, rfl, rfl⟩, ⟨_, rfl, rfl, rfl, rfl⟩⟩
      | some aqi =>
        have he : parse_data_points current daily (some aq') =
            some (base_data_points current sr ss uv ++
              [{ label := "Air Quality",
                 measurement := .int (pyInt aqi),
                 unit := get_aqi_description aqi,
                 icon := get_plugin_dir "icons/aqi.png" }]) := by
          rw [parse_data_points, hsr, hss, huv]
          simp only [Option.some_bind, hx]
          rfl
        rw [he] at hl
        injection hl with hl
        subst hl
        exact ⟨⟨_, rfl, rfl, rfl, rfl⟩, ⟨_, rfl, rfl, rfl, rfl⟩⟩
  obtain ⟨⟨dp0, h0, h0l, h0m, h0u⟩, ⟨dp1, h1, h1l, h1m, h1u⟩⟩ := hbase
  rw [lstrip0_strftimeIM] at h0m
  rw [lstrip0_strftimeIM] at h1m
  exact ⟨⟨dp0, h0, h0l, h0m, h0u⟩, ⟨dp1, h1, h1l, h1m, h1u⟩,
    by decide, rfl⟩

/-- Witness for C8: a sunrise at 06:05 yields measurement "6:05" and
unit "AM". -/
theorem sunrise_sunset_format_witness :
    ∃ dp, ((parse_data_points sampleCurrent sampleDaily none).getD
        []).get? 0 = some dp ∧ dp.label = "Sunrise" ∧
      dp.measurement = .str (natStr (hour12 sampleDT.hour) ++ ":" ++
        pad2 sampleDT.minute) ∧
      dp.unit = ampm sampleDT :=
  (sunrise_sunset_format sampleCurrent sampleDaily none sampleDT sampleDT2
    5 rfl rfl rfl
    ((parse_data_points sampleCurrent sampleDaily none).getD []) rfl).1

theorem parse_weather_data_shape (data : ForecastData)
    (aq : Option AirQuality) (p : TemplateParams)
    (h : parse_weather_data data aq = some p) :
    ∃ wc0 fc hf dps, data.daily.weathercode.get? 0 = some wc0 ∧
      parse_forecast data.daily = some fc ∧
      parse_hourly data.hourly = some hf ∧
      parse_data_points data.current data.daily aq = some dps ∧
      p = { current_date := strftimeFullDate data.current.time,
            location :=
              pyFmt2 data.latitude ++ ", " ++ pyFmt2 data.longitude,
            current_temperature :=
              intStr (pyRound data.current.temperature_2m),
            feels_like := "–",
            temperature_unit := "°C",
            units := "metric",
            current_day_icon :=
              get_plugin_dir ("icons/" ++ weatherCodeIcon wc0 ++ ".png"),
            forecast := fc,
            hourly_forecast := hf,
            data_points := dps } := by
  rw [parse_weather_data] at h
  cases hwc : data.daily.weathercode.get? 0 with
  | none =>
    rw [hwc] at h
    simp at h
  | some wc0 =>
    rw [hwc] at h
    cases hf : parse_forecast data.daily with
    | none =>
      rw [hf] at h
      simp at h
    | some fc =>
      rw [hf] at h
      cases hh : parse_hourly data.hourly with
      | none =>
        rw [hh] at h
        simp at h
      | some hfc =>
        rw [hh] at h
        cases hd : parse_data_points data.current data.daily aq with
        | none =>
          rw [hd] at h
          simp at h
        | some dps =>
          rw [hd] at h
          simp only [Option.some_bind] at h
          refine ⟨wc0, fc, hfc, dps, rfl, rfl, rfl, rfl, ?_⟩
          have h' : some
              ({ current_date := strftimeFullDate data.current.time,
                 location :=
                   pyFmt2 data.latitude ++ ", " ++ pyFmt2 data.longitude,
                 current_temperature :=
                   intStr (pyRound data.current.temperature_2m),
                 feels_like := "–",
                 temperature_unit := "°C",
                 units := "metric",
                 current_day_icon :=
                   get_plugin_dir
                     ("icons/" ++ weatherCodeIcon wc0 ++ ".png"),
                 forecast := fc,
                 hourly_forecast := hfc,
                 data_points := dps } : TemplateParams) = some p := h
          injection h' with h'
          exact h'.symm

/-- C2: the current-day icon is `daily.weathercode[0]` looked up in the
fixed read-only table; an unmapped code such as 100 falls back to the
clear-sky icon "01d", while the mapped code 61 yields its own rain icon
"10d", not the default. -/
theorem current_day_icon_selection (data : ForecastData)
    (aq : Option AirQuality) (p : TemplateParams) (wc0 : Nat)
    (hwc : data.daily.weathercode.get? 0 = some wc0)
    (h : parse_weather_data data aq = some p) :
    p.current_day_icon =
      get_plugin_dir ("icons/" ++ weatherCodeIcon wc0 ++ ".png") ∧
    WEATHER_CODE_ICONS.lookup 100 = none ∧
    weatherCodeIcon 100 = "01d" ∧
    weatherCodeIcon 61 = "10d" ∧
    weatherCodeIcon 61 ≠ weatherCodeIcon 100 := by
  obtain ⟨wc0', fc, hfc, dps, hwc', hf', hh', hd', rfl⟩ :=
    parse_weather_data_shape data aq p h
  rw [hwc] at hwc'
  injection hwc' with e
  subst e
  exact ⟨rfl, by decide, by decide, by decide, by decide⟩

/-- Witness for C2: the sample response has weather code 61 and its
template dict carries the rain icon for it. -/
theorem current_day_icon_selection_witness :
    ((parse_weather_data sampleData none).getD default).current_day_icon =
      get_plugin_dir ("icons/" ++ weatherCodeIcon 61 ++ ".png") :=
  (current_day_icon_selection sampleData none
    ((parse_weather_data sampleData none).getD default) 61 rfl rfl).1

/-- C10: the template "location" field is formatted, two decimals each
and joined by ", ", from the latitude and longitude of the forecast
response body (so an API-adjusted grid coordinate is what gets
displayed); the sample body coordinates 5/4 and 6/5 display as "1.25"
and "1.20". -/
theorem location_from_response_body (data : ForecastData)
    (aq : Option AirQuality) (p : TemplateParams)
    (h : parse_weather_data data aq = some p) :
    p.location = pyFmt2 data.latitude ++ ", " ++ pyFmt2 data.longitude ∧
    pyFmt2 sampleData.latitude = "1.25" ∧
    pyFmt2 sampleData.longitude = "1.20" ∧
    pyFmt2 1 = "1.00" ∧
    pyFmt2 sampleData.latitude ≠ pyFmt2 1 := by
  obtain ⟨wc0', fc, hfc, dps, hwc', hf', hh', hd', rfl⟩ :=
    parse_weather_data_shape data aq p h
  have e14 : pyFmt2 (5 / 4 : ℚ) = "1.25" := by
    have h1 : (|((5 : ℚ) / 4)| * 100 : ℚ) = 125 := by
      rw [abs_of_nonneg (by norm_num : (0 : ℚ) ≤ 5 / 4)]
      norm_num
    have h2 : pyRound (125 : ℚ) = 125 := by norm_num [pyRound]
    simp only [pyFmt2, h1, h2]
    rw [if_neg (by norm_num : ¬ ((5 : ℚ) / 4) < 0)]
    decide
  have e65 : pyFmt2 (6 / 5 : ℚ) = "1.20" := by
    have h1 : (|((6 : ℚ) / 5)| * 100 : ℚ) = 120 := by
      rw [abs_of_nonneg (by norm_num : (0 : ℚ) ≤ 6 / 5)]
      norm_num
    have h2 : pyRound (120 : ℚ) = 120 := by norm_num [pyRound]
    simp only [pyFmt2, h1, h2]
    rw [if_neg (by norm_num : ¬ ((6 : ℚ) / 5) < 0)]
    decide
  have e1 : pyFmt2 (1 : ℚ) = "1.00" := by
    have h1 : (|(1 : ℚ)| * 100 : ℚ) = 100 := by norm_num
    have h2 : pyRound (100 : ℚ) = 100 := by norm_num [pyRound]
    simp only [pyFmt2, h1, h2]
    rw [if_neg (by norm_num : ¬ (1 : ℚ) < 0)]
    decide
  have hlat : sampleData.latitude = 5 / 4 := rfl
  have hlong : sampleData.longitude = 6 / 5 := rfl
  refine ⟨rfl, by rw [hlat, e14], by rw [hlong, e65], e1, ?_⟩
  rw [hlat, e14, e1]
  decide

/-- Witness for C10: the sample response body displays its own grid
coordinates. -/
theorem location_from_response_body_witness :
    ((parse_weather_data sampleData none).getD default).location =
      pyFmt2 sampleData.latitude ++ ", " ++ pyFmt2 sampleData.longitude :=
  (location_from_response_body sampleData none
    ((parse_weather_data sampleData none).getD default) rfl).1
